import Mathlib

/-
Verification of the OpenVDO multi-tenant connection-pooling subsystem
(`internal/database`): a shallow embedding of the two pool managers
(`PoolManager` in pool.go, `StatelessPoolManager` in stateless_pool.go),
the tenant-scoped handle wrappers (`TenantDB`, `StatelessTenantDB`), the
Redis session cache, and the health reporters, together with theorems
about leasing, release, caching and health behaviour.

Modelling conventions:
- `uuid.UUID` is abstracted to `Nat`, `time.Time` to `Nat` (only ordering
  and addition of durations matter), `*sql.Conn` to a `Nat` identifier.
- External effects (pool checkout, statement execution, pings, the Redis
  backend) are driven by explicit environment records of booleans that say
  whether each external call succeeds, and every function additionally
  returns the list of externally visible actions it performed, in order.
- Per Go's database/sql documentation, `(*sql.Conn).Close` "returns the
  connection to the connection pool"; the source states the same in
  `ReleaseConnection` ("Close connection to return it to pool").  The
  action `Action.connClose c` therefore means: connection `c` is handed
  back to its driver-level pool, not torn down.
- The SQL queries are embedded over an explicit `user_org_roles` table,
  given as a list of rows in storage order.  A query with `LIMIT 1` and no
  `ORDER BY` yields the first matching row in storage order; `ORDER BY
  created_at DESC LIMIT 1` yields a row with maximal `created_at`.
- JSON marshalling of `UserSession` values stored in Redis is modelled as
  the identity (it round-trips for every value the code stores).
-/

namespace OpenVDO

/-- Abstract `uuid.UUID`. -/
abbrev Uuid := Nat

/-- Abstract `time.Time` (only ordering and adding durations matter). -/
abbrev Time := Nat

/-- Abstract `*sql.Conn`: an identifier of a checked-out connection. -/
abbrev Conn := Nat

/-- The SQL statements the pooling layer issues on a raw connection. -/
inductive Stmt where
  /-- `SET LOCAL app.current_user_id = $1` with the given user id. -/
  | setCurrentUserId (u : Uuid)
  /-- `SET LOCAL app.request_timestamp = $1`. -/
  | setRequestTimestamp
  /-- `RESET ALL`. -/
  | resetAll
  /-- `SET search_path TO public`. -/
  | setSearchPath
  /-- An application-level statement issued through a tenant handle. -/
  | appStatement
deriving DecidableEq

/-- Errors produced by the pooling layer, one constructor per distinct
`fmt.Errorf` site in the source (wrapping via `%w` is kept as a nested
argument). -/
inductive DBError where
  /-- "user not found in any organization" -/
  | userNotFound
  /-- "failed to get connection from pool" / "from tenant pool" -/
  | getConnectionFailed
  /-- a failed `ExecContext` on the raw driver connection -/
  | execFailed
  /-- "failed to set RLS context: %w" (stateless setUserContext) -/
  | setRLSContextFailed
  /-- "failed to cast connection to PostgreSQL driver" -/
  | castFailed
  /-- "failed to set user context: %w" -/
  | setUserContextFailed (inner : DBError)
  /-- "maximum tenant pools (%d) reached" -/
  | maxTenantPoolsReached (max : Nat)
  /-- "failed to get user org info: %w" -/
  | getUserOrgInfoFailed (inner : DBError)
  /-- "failed to open tenant database: %w" -/
  | openTenantDBFailed
  /-- "connection has been released" -/
  | connectionReleased
  /-- "redis not available" -/
  | redisNotAvailable
  /-- "session not found in cache" (redis.Nil) -/
  | sessionNotFoundInCache
  /-- "redis error: %w" — the backend is unreachable -/
  | redisError
  /-- "session expired" -/
  | sessionExpired
  /-- "context reset error: %w, close error: %w" (close error folded in) -/
  | contextResetError (inner : DBError)
  /-- a failed `conn.Close()` -/
  | closeFailed
  /-- a failed ping -/
  | pingFailed
  /-- a failed query on the raw connection -/
  | queryFailed
  /-- method call on a nil connection (a Go nil-pointer panic) -/
  | nilConnPanic
deriving DecidableEq

deriving instance DecidableEq for Except

/-- Externally visible actions, recorded in order of occurrence. -/
inductive Action where
  /-- a connection was checked out of a driver-level pool -/
  | acquireConn (c : Conn)
  /-- a statement was issued on connection `c` -/
  | execOnConn (c : Conn) (s : Stmt)
  /-- `(*sql.Conn).Close`: `c` goes back to its driver-level pool -/
  | connClose (c : Conn)
  /-- the directory query against `user_org_roles` for user `u` -/
  | dirLookup (u : Uuid)
  /-- `redis.Get` for user `u`'s session key -/
  | cacheGet (u : Uuid)
  /-- `redis.Set` for user `u`'s session key -/
  | cacheSet (u : Uuid)
  /-- `redis.Del` for user `u`'s session key -/
  | cacheDel (u : Uuid)
  /-- `BeginTx` on connection `c` -/
  | beginTxOnConn (c : Conn)
  /-- a ping of the master database -/
  | pingMaster
  /-- a `log.Printf("WARN: ...")` call -/
  | logWarn
deriving DecidableEq

/-- Per Go's database/sql documentation (and the source's own comment
"Close connection to return it to pool"), `(*sql.Conn).Close` returns the
connection to the driver-level pool. -/
def returnedToPool (tr : List Action) (c : Conn) : Prop :=
  Action.connClose c ∈ tr

instance (tr : List Action) (c : Conn) : Decidable (returnedToPool tr c) := by
  unfold returnedToPool; infer_instance

/-- One row of the `user_org_roles` table. -/
structure UserOrgRole where
  userId : Uuid
  orgId : Uuid
  role : String
  createdAt : Time
deriving DecidableEq

/-- The `UserSession` struct of stateless_pool.go. -/
structure UserSession where
  userId : Uuid
  orgId : Uuid
  role : String
  expiresAt : Time
deriving DecidableEq

/-- The session TTL: `time.Now().Add(30 * time.Minute)`, in abstract time
units. -/
def sessionTTL : Time := 30 * 60

/-- `SELECT organization_id, role FROM user_org_roles WHERE user_id = $1
LIMIT 1` — no `ORDER BY`, so the row is the first match in storage order. -/
def firstRowFor (u : Uuid) : List UserOrgRole → Option UserOrgRole
  | [] => none
  | r :: rest => if r.userId = u then some r else firstRowFor u rest

/-- `SELECT ... WHERE user_id = $1 ORDER BY created_at DESC LIMIT 1` — a
row of maximal `created_at` among the user's rows (SQL leaves ties
unordered; the first such row in storage order is taken). -/
def newestRowFor (u : Uuid) : List UserOrgRole → Option UserOrgRole
  | [] => none
  | r :: rest =>
    let tail := newestRowFor u rest
    if r.userId = u then
      match tail with
      | none => some r
      | some b => if r.createdAt < b.createdAt then some b else some r
    else tail

/-- `PoolManager.getUserOrgInfo` (pool.go): the dedicated-mode directory
lookup.  Scans `masterDB` with the no-`ORDER BY` query. -/
def pmGetUserOrgInfo (table : List UserOrgRole) (u : Uuid) :
    Except DBError (Uuid × String) × List Action :=
  match firstRowFor u table with
  | none => (.error .userNotFound, [.dirLookup u])
  | some r => (.ok (r.orgId, r.role), [.dirLookup u])

/-- `StatelessPoolManager.getUserSessionFromDB` (stateless_pool.go): the
shared-mode directory lookup, `ORDER BY created_at DESC LIMIT 1`; on
success builds a `UserSession` expiring `sessionTTL` from now.  (The
master-connection checkout and its release around the query are elided:
they do not affect the lookup's result.) -/
def spmGetUserSessionFromDB (table : List UserOrgRole) (now : Time) (u : Uuid) :
    Except DBError UserSession × List Action :=
  match newestRowFor u table with
  | none => (.error .userNotFound, [.dirLookup u])
  | some r => (.ok ⟨u, r.orgId, r.role, now + sessionTTL⟩, [.dirLookup u])

theorem firstRowFor_mem {u : Uuid} {l : List UserOrgRole} {r : UserOrgRole}
    (h : firstRowFor u l = some r) : r ∈ l ∧ r.userId = u := by
  induction l with
  | nil => simp [firstRowFor] at h
  | cons a rest ih =>
    by_cases ha : a.userId = u
    · simp [firstRowFor, ha] at h
      subst h
      exact ⟨List.mem_cons_self a rest, ha⟩
    · simp [firstRowFor, ha] at h
      rcases ih h with ⟨hm, hu⟩
      exact ⟨List.mem_cons_of_mem a hm, hu⟩

theorem firstRowFor_eq_none {u : Uuid} {l : List UserOrgRole} :
    firstRowFor u l = none ↔ ∀ r ∈ l, r.userId ≠ u := by
  induction l with
  | nil => simp [firstRowFor]
  | cons a rest ih =>
    by_cases ha : a.userId = u
    · simp [firstRowFor, ha]
    · simp [firstRowFor, ha, ih]

theorem newestRowFor_mem {u : Uuid} {l : List UserOrgRole} {r : UserOrgRole}
    (h : newestRowFor u l = some r) : r ∈ l ∧ r.userId = u := by
  induction l with
  | nil => simp [newestRowFor] at h
  | cons a rest ih =>
    by_cases ha : a.userId = u
    · simp only [newestRowFor, ha, if_pos] at h
      rcases htail : newestRowFor u rest with _ | b
      · rw [htail] at h
        simp at h
        subst h
        exact ⟨List.mem_cons_self a rest, ha⟩
      · rw [htail] at h
        by_cases hlt : a.createdAt < b.createdAt
        · simp [hlt] at h
          subst h
          rcases ih htail with ⟨hm, hu⟩
          exact ⟨List.mem_cons_of_mem a hm, hu⟩
        · simp [hlt] at h
          subst h
          exact ⟨List.mem_cons_self a rest, ha⟩
    · simp only [newestRowFor, ha, if_neg, not_false_iff] at h
      rcases ih h with ⟨hm, hu⟩
      exact ⟨List.mem_cons_of_mem a hm, hu⟩

theorem newestRowFor_eq_none {u : Uuid} {l : List UserOrgRole} :
    newestRowFor u l = none ↔ ∀ r ∈ l, r.userId ≠ u := by
  induction l with
  | nil => simp [newestRowFor]
  | cons a rest ih =>
    by_cases ha : a.userId = u
    · constructor
      · intro h
        simp only [newestRowFor, ha, if_pos] at h
        rcases htail : newestRowFor u rest with _ | b <;> rw [htail] at h <;> simp at h
        split at h <;> simp at h
      · intro h
        exact absurd ha (h a (List.mem_cons_self a rest))
    · simp [newestRowFor, ha, ih]

theorem newestRowFor_ge {u : Uuid} {l : List UserOrgRole} {r : UserOrgRole}
    (h : newestRowFor u l = some r) :
    ∀ r' ∈ l, r'.userId = u → r'.createdAt ≤ r.createdAt := by
  induction l generalizing r with
  | nil => simp [newestRowFor] at h
  | cons a rest ih =>
    intro r' hr' hu'
    by_cases ha : a.userId = u
    · simp only [newestRowFor, ha, if_pos] at h
      rcases htail : newestRowFor u rest with _ | b
      · rw [htail] at h
        simp at h
        subst h
        rcases List.mem_cons.mp hr' with h1 | h1
        · subst h1; exact le_refl _
        · exact absurd (newestRowFor_eq_none.mp htail r' h1) (by simp [hu'])
      · rw [htail] at h
        by_cases hlt : a.createdAt < b.createdAt
        · simp [hlt] at h
          subst h
          rcases List.mem_cons.mp hr' with h1 | h1
          · subst h1; exact le_of_lt hlt
          · exact ih htail r' h1 hu'
        · simp [hlt] at h
          subst h
          rcases List.mem_cons.mp hr' with h1 | h1
          · subst h1; exact le_refl _
          · exact le_trans (ih htail r' h1 hu') (not_lt.mp hlt)
    · simp only [newestRowFor, ha, if_neg, not_false_iff] at h
      rcases List.mem_cons.mp hr' with h1 | h1
      · subst h1; exact absurd hu' ha
      · exact ih h r' h1 hu'

/-- Outcomes of the raw-connection calls made while injecting context:
whether the dynamic cast to the driver's `ExecContext` interface succeeds,
and whether each `SET LOCAL` statement succeeds. -/
structure CtxEnv where
  castOk : Bool
  setUserIdOk : Bool
  /-- outcome of `SET LOCAL app.request_timestamp`; the stateless injector
  deliberately ignores it, so it influences no result -/
  setTimestampOk : Bool
deriving DecidableEq

/-- `setUserContext` (pool.go): issues a single
`SET LOCAL app.current_user_id` statement; a failed cast or a failed
statement is returned as the error. -/
def setUserContext (env : CtxEnv) (c : Conn) (u : Uuid) :
    Except DBError Unit × List Action :=
  if env.castOk = false then (.error .castFailed, [])
  else if env.setUserIdOk = false then
    (.error .execFailed, [.execOnConn c (.setCurrentUserId u)])
  else (.ok (), [.execOnConn c (.setCurrentUserId u)])

/-- `StatelessPoolManager.setUserContext` (stateless_pool.go): sets
`app.current_user_id`, then `app.request_timestamp` whose failure is
logged-and-ignored ("Log error but don't fail the connection setup"). -/
def spmSetUserContext (env : CtxEnv) (c : Conn) (u : Uuid) :
    Except DBError Unit × List Action :=
  if env.castOk = false then (.error .castFailed, [])
  else if env.setUserIdOk = false then
    (.error .setRLSContextFailed, [.execOnConn c (.setCurrentUserId u)])
  else
    (.ok (), [.execOnConn c (.setCurrentUserId u), .execOnConn c .setRequestTimestamp])

/-- Environment of one `StatelessPoolManager.GetTenantConnection` call:
the connection `masterDB.Conn(ctx)` yields (or `none` if the checkout
fails), and the context-injection outcomes. -/
structure SpmLeaseEnv where
  acquired : Option Conn
  ctx : CtxEnv
deriving DecidableEq

/-- `StatelessPoolManager.GetTenantConnection`: check a connection out of
the shared pool, then inject the tenant context; on injection failure call
`conn.Close()` and fail the lease.  (Metrics recording is elided.) -/
def spmGetTenantConnection (env : SpmLeaseEnv) (u : Uuid) :
    Except DBError Conn × List Action :=
  match env.acquired with
  | none => (.error .getConnectionFailed, [])
  | some c =>
    match spmSetUserContext env.ctx c u with
    | (.ok _, tr) => (.ok c, .acquireConn c :: tr)
    | (.error e, tr) =>
      (.error (.setUserContextFailed e), (.acquireConn c :: tr) ++ [.connClose c])

/-- Outcomes of the raw-connection calls made while releasing a shared
connection: the driver cast, the two reset statements, and `conn.Close()`. -/
structure ReleaseEnv where
  castOk : Bool
  resetAllOk : Bool
  setSearchPathOk : Bool
  closeOk : Bool
deriving DecidableEq

/-- `StatelessPoolManager.ReleaseConnection`: on a nil connection return
nil; otherwise issue `RESET ALL` and `SET search_path TO public` (each
failure is logged with `log.Printf("WARN: ...")` and swallowed), then call
`conn.Close()` — which returns the connection to the shared pool — and
return the close error, or the cast error wrapped together with it. -/
def spmReleaseConnection (env : ReleaseEnv) (conn : Option Conn) :
    Except DBError Unit × List Action :=
  match conn with
  | none => (.ok (), [])
  | some c =>
    let rawStep : Except DBError Unit × List Action :=
      if env.castOk = false then (.error .castFailed, [])
      else
        let t1 : List Action :=
          if env.resetAllOk then [.execOnConn c .resetAll]
          else [.execOnConn c .resetAll, .logWarn]
        let t2 : List Action :=
          if env.setSearchPathOk then [.execOnConn c .setSearchPath]
          else [.execOnConn c .setSearchPath, .logWarn]
        (.ok (), t1 ++ t2)
    let closeRes : Except DBError Unit :=
      if env.closeOk then .ok () else .error .closeFailed
    match rawStep with
    | (.ok _, tr) => (closeRes, tr ++ [.connClose c])
    | (.error e, tr) => (.error (.contextResetError e), tr ++ [.connClose c])

/-- The Redis key space `user:session:<uid>`, modelled as an association
list keyed by the user id. -/
abbrev CacheStore := List (Uuid × UserSession)

/-- Lookup of `user:session:<uid>`. -/
def storeLookup (u : Uuid) : CacheStore → Option UserSession
  | [] => none
  | (k, s) :: rest => if k = u then some s else storeLookup u rest

/-- `redis.Del` on `user:session:<uid>`. -/
def storeRemove (u : Uuid) : CacheStore → CacheStore
  | [] => []
  | (k, s) :: rest =>
    if k = u then storeRemove u rest else (k, s) :: storeRemove u rest

/-- `redis.Set` on `user:session:<uid>`: overwrites any existing entry. -/
def storeInsert (s : UserSession) (st : CacheStore) : CacheStore :=
  (s.userId, s) :: storeRemove s.userId st

theorem storeLookup_remove (u : Uuid) (st : CacheStore) :
    storeLookup u (storeRemove u st) = none := by
  induction st with
  | nil => simp [storeRemove, storeLookup]
  | cons p rest ih =>
    rcases p with ⟨k, s⟩
    by_cases hk : k = u
    · simp [storeRemove, hk, ih]
    · simp [storeRemove, storeLookup, hk, ih]

theorem storeLookup_insert (s : UserSession) (st : CacheStore) :
    storeLookup s.userId (storeInsert s st) = some s := by
  simp [storeInsert, storeLookup]

/-- Whether the Redis backend answers (`false` models an unreachable
backend: every command returns a transport error). -/
structure RedisEnv where
  reachable : Bool
deriving DecidableEq

/-- `StatelessPoolManager.getUserSessionFromCache`: errors when no client
is configured, on a transport failure, on a missing key (`redis.Nil`) and
on an expired entry; an expired entry is deleted (`spm.redis.Del`) before
the miss is reported.  Expiry check: `time.Now().After(session.ExpiresAt)`. -/
def spmGetUserSessionFromCache (present : Bool) (env : RedisEnv) (now : Time)
    (st : CacheStore) (u : Uuid) :
    Except DBError UserSession × CacheStore × List Action :=
  if present = false then (.error .redisNotAvailable, st, [])
  else if env.reachable = false then (.error .redisError, st, [.cacheGet u])
  else
    match storeLookup u st with
    | none => (.error .sessionNotFoundInCache, st, [.cacheGet u])
    | some s =>
      if s.expiresAt < now then
        (.error .sessionExpired, storeRemove u st, [.cacheGet u, .cacheDel u])
      else (.ok s, st, [.cacheGet u])

/-- `StatelessPoolManager.cacheUserSession`: nil client is a no-op
returning nil; otherwise `redis.Set` with the 30-minute TTL, whose
transport error is returned. -/
def spmCacheUserSession (present : Bool) (env : RedisEnv)
    (st : CacheStore) (s : UserSession) :
    Except DBError Unit × CacheStore × List Action :=
  if present = false then (.ok (), st, [])
  else if env.reachable = false then (.error .redisError, st, [.cacheSet s.userId])
  else (.ok (), storeInsert s st, [.cacheSet s.userId])

/-- `StatelessPoolManager.InvalidateUserSession`: nil client is a no-op
returning nil; otherwise `redis.Del`, whose transport error is returned. -/
def spmInvalidateUserSession (present : Bool) (env : RedisEnv)
    (st : CacheStore) (u : Uuid) :
    Except DBError Unit × CacheStore × List Action :=
  if present = false then (.ok (), st, [])
  else if env.reachable = false then (.error .redisError, st, [.cacheDel u])
  else (.ok (), storeRemove u st, [.cacheDel u])

/-- `StatelessPoolManager.GetUserSession`: when a Redis client is
configured, try the cache and return a hit; on any cache error fall back
to the directory lookup and, on success, populate the cache with the
result (the `cacheUserSession` return value is discarded).  (Hit/miss
metric updates are elided.) -/
def spmGetUserSession (present : Bool) (env : RedisEnv)
    (table : List UserOrgRole) (now : Time) (st : CacheStore) (u : Uuid) :
    Except DBError UserSession × CacheStore × List Action :=
  if present then
    match spmGetUserSessionFromCache present env now st u with
    | (.ok s, st1, tr1) => (.ok s, st1, tr1)
    | (.error _, st1, tr1) =>
      match spmGetUserSessionFromDB table now u with
      | (.error e, tr2) => (.error e, st1, tr1 ++ tr2)
      | (.ok s, tr2) =>
        match spmCacheUserSession present env st1 s with
        | (_, st2, tr3) => (.ok s, st2, tr1 ++ tr2 ++ tr3)
  else
    match spmGetUserSessionFromDB table now u with
    | (.error e, tr2) => (.error e, st, tr2)
    | (.ok s, tr2) => (.ok s, st, tr2)

/-- The `TenantPool` struct of pool.go (the dedicated `*sql.DB` is
tenant-exclusive and is left abstract). -/
structure TenantPool where
  userId : Uuid
  orgId : Uuid
  role : String
  createdAt : Time
  lastUsed : Time
deriving DecidableEq

/-- The `PoolManager` state: the `tenantPools` map (an association list
keyed by `userID.String()`) and the configured `MaxTenantPools` cap. -/
structure PMState where
  tenantPools : List (Uuid × TenantPool)
  maxTenantPools : Nat
deriving DecidableEq

/-- Lookup in the `tenantPools` map. -/
def findPool (u : Uuid) : List (Uuid × TenantPool) → Option TenantPool
  | [] => none
  | (k, p) :: rest => if k = u then some p else findPool u rest

/-- `pool.LastUsed = time.Now()` on the entry for `u` (keys are unique in
a Go map; every matching entry is updated). -/
def pmUpdateLastUsed (u : Uuid) (now : Time) :
    List (Uuid × TenantPool) → List (Uuid × TenantPool)
  | [] => []
  | (k, p) :: rest =>
    (k, if k = u then { p with lastUsed := now } else p) :: pmUpdateLastUsed u now rest

/-- Outcome of `sql.Open` for a fresh tenant pool. -/
structure PMCreateEnv where
  openOk : Bool
deriving DecidableEq

/-- `PoolManager.createTenantPool`: under the write lock, double-check the
map, enforce the `MaxTenantPools` cap, then run the directory lookup, open
the dedicated pool and record it as active.  Returns the actions performed.
-/
def pmCreateTenantPool (env : PMCreateEnv) (st : PMState)
    (table : List UserOrgRole) (now : Time) (u : Uuid) :
    Except DBError TenantPool × PMState × List Action :=
  match findPool u st.tenantPools with
  | some pool => (.ok pool, st, [])
  | none =>
    if st.maxTenantPools ≤ st.tenantPools.length then
      (.error (.maxTenantPoolsReached st.maxTenantPools), st, [])
    else
      match pmGetUserOrgInfo table u with
      | (.error e, tr) => (.error (.getUserOrgInfoFailed e), st, tr)
      | (.ok (orgId, role), tr) =>
        if env.openOk = false then (.error .openTenantDBFailed, st, tr)
        else
          let pool : TenantPool := ⟨u, orgId, role, now, now⟩
          (.ok pool, { st with tenantPools := st.tenantPools ++ [(u, pool)] }, tr)

/-- Environment of one `PoolManager.GetTenantConnection` call. -/
structure PMLeaseEnv where
  createEnv : PMCreateEnv
  /-- outcome of `pool.DB.Conn(ctx)` -/
  connOk : Bool
  /-- the connection handed out when `connOk` -/
  conn : Conn
  ctx : CtxEnv
deriving DecidableEq

/-- `PoolManager.GetTenantConnection`: find (or lazily create) the
tenant's pool, stamp `LastUsed`, check a connection out of the tenant
pool, and inject the RLS context; on injection failure call `conn.Close()`
and fail the lease. -/
def pmGetTenantConnection (env : PMLeaseEnv) (st : PMState)
    (table : List UserOrgRole) (now : Time) (u : Uuid) :
    Except DBError Conn × PMState × List Action :=
  let step : Except DBError TenantPool × PMState × List Action :=
    match findPool u st.tenantPools with
    | some pool => (.ok pool, st, [])
    | none => pmCreateTenantPool env.createEnv st table now u
  match step with
  | (.error e, st1, tr) => (.error e, st1, tr)
  | (.ok _, st1, tr) =>
    let st2 : PMState := { st1 with tenantPools := pmUpdateLastUsed u now st1.tenantPools }
    if env.connOk = false then (.error .getConnectionFailed, st2, tr)
    else
      match setUserContext env.ctx env.conn u with
      | (.ok _, tr2) => (.ok env.conn, st2, tr ++ .acquireConn env.conn :: tr2)
      | (.error e, tr2) =>
        (.error (.setUserContextFailed e), st2,
          (tr ++ .acquireConn env.conn :: tr2) ++ [.connClose env.conn])

theorem findPool_append_none {u : Uuid} {l : List (Uuid × TenantPool)}
    (h : findPool u l = none) (l' : List (Uuid × TenantPool)) :
    findPool u (l ++ l') = findPool u l' := by
  induction l with
  | nil => simp
  | cons p rest ih =>
    rcases p with ⟨k, q⟩
    by_cases hk : k = u
    · simp [findPool, hk] at h
    · simp [findPool, hk] at h ⊢
      exact ih h

theorem findPool_updateLastUsed (u v : Uuid) (now : Time)
    (l : List (Uuid × TenantPool)) :
    findPool u (pmUpdateLastUsed v now l) =
      (findPool u l).map (fun p => if u = v then { p with lastUsed := now } else p) := by
  induction l with
  | nil => simp [pmUpdateLastUsed, findPool]
  | cons p rest ih =>
    rcases p with ⟨k, q⟩
    by_cases hk : k = u
    · subst hk
      by_cases hv : k = v
      · simp [pmUpdateLastUsed, findPool, hv]
      · simp [pmUpdateLastUsed, findPool, hv]
    · simp [pmUpdateLastUsed, findPool, hk, ih]

/-- `*sql.Row` as far as this layer observes it: the deferred error and
the connection the row came from.  `&sql.Row\x7b\x7d` is the zero value
`⟨none, none⟩`: it carries no error and no data source. -/
structure Row where
  rowErr : Option DBError
  source : Option Conn
deriving DecidableEq

/-- Outcome of the underlying driver call an operation would make. -/
structure OpEnv where
  underlyingOk : Bool
deriving DecidableEq

/-- The `StatelessTenantDB` handle of stateless_tenant.go. -/
structure StatelessTenantDB where
  conn : Option Conn
  userId : Uuid
  released : Bool
deriving DecidableEq

/-- The dedicated-mode `TenantDB` handle (tenant.go); `NewTenantDB` always
stores the non-nil leased connection. -/
structure TenantDB where
  conn : Conn
  userId : Uuid
  released : Bool
deriving DecidableEq

/-- `StatelessTenantDB.ExecContext`: fail fast with "connection has been
released" on a released handle, otherwise forward to the connection. -/
def stdbExecContext (env : OpEnv) (t : StatelessTenantDB) :
    Except DBError Unit × List Action :=
  if t.released then (.error .connectionReleased, [])
  else
    match t.conn with
    | none => (.error .nilConnPanic, [])
    | some c =>
      if env.underlyingOk then (.ok (), [.execOnConn c .appStatement])
      else (.error .execFailed, [.execOnConn c .appStatement])

/-- `StatelessTenantDB.QueryContext`. -/
def stdbQueryContext (env : OpEnv) (t : StatelessTenantDB) :
    Except DBError Unit × List Action :=
  if t.released then (.error .connectionReleased, [])
  else
    match t.conn with
    | none => (.error .nilConnPanic, [])
    | some c =>
      if env.underlyingOk then (.ok (), [.execOnConn c .appStatement])
      else (.error .queryFailed, [.execOnConn c .appStatement])

/-- `StatelessTenantDB.QueryRowContext`: on a released handle the source
returns `&sql.Row\x7b\x7d` — the zero-value row, carrying no error. -/
def stdbQueryRowContext (env : OpEnv) (t : StatelessTenantDB) :
    Row × List Action :=
  if t.released then (⟨none, none⟩, [])
  else
    match t.conn with
    | none => (⟨some .nilConnPanic, none⟩, [])
    | some c =>
      if env.underlyingOk then (⟨none, some c⟩, [.execOnConn c .appStatement])
      else (⟨some .queryFailed, some c⟩, [.execOnConn c .appStatement])

/-- `StatelessTenantDB.BeginTx`. -/
def stdbBeginTx (env : OpEnv) (t : StatelessTenantDB) :
    Except DBError Unit × List Action :=
  if t.released then (.error .connectionReleased, [])
  else
    match t.conn with
    | none => (.error .nilConnPanic, [])
    | some c =>
      if env.underlyingOk then (.ok (), [.beginTxOnConn c])
      else (.error .execFailed, [.beginTxOnConn c])

/-- `StatelessTenantDB.Ping` (pings the master database when live). -/
def stdbPing (env : OpEnv) (t : StatelessTenantDB) :
    Except DBError Unit × List Action :=
  if t.released then (.error .connectionReleased, [])
  else if env.underlyingOk then (.ok (), [.pingMaster])
  else (.error .pingFailed, [.pingMaster])

/-- `StatelessTenantDB.Release`: a second call short-circuits to nil; the
first call sets `released` before the cleanup and returns
`pool.ReleaseConnection(conn)`'s result. -/
def stdbRelease (env : ReleaseEnv) (t : StatelessTenantDB) :
    Except DBError Unit × StatelessTenantDB × List Action :=
  if t.released then (.ok (), t, [])
  else
    match spmReleaseConnection env t.conn with
    | (r, tr) => (r, { t with released := true }, tr)

/-- `TenantDB.ExecContext` (dedicated mode). -/
def tdbExecContext (env : OpEnv) (t : TenantDB) :
    Except DBError Unit × List Action :=
  if t.released then (.error .connectionReleased, [])
  else if env.underlyingOk then (.ok (), [.execOnConn t.conn .appStatement])
  else (.error .execFailed, [.execOnConn t.conn .appStatement])

/-- `TenantDB.QueryContext` (dedicated mode). -/
def tdbQueryContext (env : OpEnv) (t : TenantDB) :
    Except DBError Unit × List Action :=
  if t.released then (.error .connectionReleased, [])
  else if env.underlyingOk then (.ok (), [.execOnConn t.conn .appStatement])
  else (.error .queryFailed, [.execOnConn t.conn .appStatement])

/-- `TenantDB.QueryRowContext` (dedicated mode): also returns the
zero-value row on a released handle. -/
def tdbQueryRowContext (env : OpEnv) (t : TenantDB) : Row × List Action :=
  if t.released then (⟨none, none⟩, [])
  else if env.underlyingOk then (⟨none, some t.conn⟩, [.execOnConn t.conn .appStatement])
  else (⟨some .queryFailed, some t.conn⟩, [.execOnConn t.conn .appStatement])

/-- `TenantDB.BeginTx` (dedicated mode). -/
def tdbBeginTx (env : OpEnv) (t : TenantDB) :
    Except DBError Unit × List Action :=
  if t.released then (.error .connectionReleased, [])
  else if env.underlyingOk then (.ok (), [.beginTxOnConn t.conn])
  else (.error .execFailed, [.beginTxOnConn t.conn])

/-- `TenantDB.Ping` (dedicated mode). -/
def tdbPing (env : OpEnv) (t : TenantDB) :
    Except DBError Unit × List Action :=
  if t.released then (.error .connectionReleased, [])
  else if env.underlyingOk then (.ok (), [.pingMaster])
  else (.error .pingFailed, [.pingMaster])

/-- `TenantDB.Release` (dedicated mode): idempotent; the first call sets
`released` and returns `conn.Close()`'s result (the connection goes back
to its tenant pool). -/
def tdbRelease (closeOk : Bool) (t : TenantDB) :
    Except DBError Unit × TenantDB × List Action :=
  if t.released then (.ok (), t, [])
  else
    ((if closeOk then .ok () else .error .closeFailed),
      { t with released := true }, [.connClose t.conn])

/-- Health error messages, by site. -/
inductive HealthErrorTag where
  | masterPingFailed
  | redisPingFailed
  | redisNotInitialized
  | tooManyOpenConnections
deriving DecidableEq

/-- The `HealthStatus` struct (stats.go), restricted to the fields the
health logic writes. -/
structure HealthStatus where
  healthy : Bool
  masterHealthy : Bool
  redisHealthy : Bool
  totalConnections : Nat
  errorTags : List HealthErrorTag
deriving DecidableEq

/-- Inputs of `StatelessPoolManager.GetHealth`. -/
structure SpmHealthEnv where
  masterPingOk : Bool
  redisPresent : Bool
  redisPingOk : Bool
  /-- `masterDB.Stats().OpenConnections` -/
  openConnections : Nat
  /-- `config.MaxOpenConns` -/
  maxOpenConns : Nat
deriving DecidableEq

/-- `StatelessPoolManager.GetHealth`: starts from `Healthy: true`, pings
the master pool and (when configured) Redis, then flags over-capacity via
`TotalConnections > MaxOpenConns`.  Note: a nil Redis client records
`RedisHealthy: false` plus an error string but does not clear `Healthy`. -/
def spmGetHealth (env : SpmHealthEnv) : HealthStatus :=
  let s : HealthStatus :=
    { healthy := true, masterHealthy := false, redisHealthy := false,
      totalConnections := 0, errorTags := [] }
  let s :=
    if env.masterPingOk then { s with masterHealthy := true }
    else { s with masterHealthy := false, healthy := false,
                  errorTags := s.errorTags ++ [.masterPingFailed] }
  let s :=
    if env.redisPresent then
      if env.redisPingOk then { s with redisHealthy := true }
      else { s with redisHealthy := false, healthy := false,
                    errorTags := s.errorTags ++ [.redisPingFailed] }
    else { s with redisHealthy := false,
                  errorTags := s.errorTags ++ [.redisNotInitialized] }
  let s := { s with totalConnections := env.openConnections }
  if env.maxOpenConns < s.totalConnections then
    { s with healthy := false, errorTags := s.errorTags ++ [.tooManyOpenConnections] }
  else s

/-- Inputs of `PoolManager.GetHealth` (stats.go). -/
structure PMHealthEnv where
  masterPingOk : Bool
  /-- `OpenConnections` of each tenant pool -/
  tenantOpenConns : List Nat
  /-- `OpenConnections` of the master pool -/
  masterOpenConns : Nat
  maxOpenConns : Nat
  maxTenantPools : Nat
deriving DecidableEq

/-- `PoolManager.GetHealth` (stats.go): the struct literal initializes
only `Timestamp` and `CheckInterval`, so `Healthy` starts at Go's zero
value `false`; a failed master ping sets it to `false`, a successful one
sets only `MasterHealthy`; the capacity check
`TotalConnections > MaxOpenConns + MaxTenantPools*10` can clear it.  No
branch ever sets `Healthy` to `true`. -/
def pmGetHealth (env : PMHealthEnv) : HealthStatus :=
  let s : HealthStatus :=
    { healthy := false, masterHealthy := false, redisHealthy := false,
      totalConnections := 0, errorTags := [] }
  let s :=
    if env.masterPingOk then { s with masterHealthy := true }
    else { s with masterHealthy := false, healthy := false,
                  errorTags := s.errorTags ++ [.masterPingFailed] }
  let s := { s with totalConnections := env.tenantOpenConns.sum + env.masterOpenConns }
  if env.maxOpenConns + env.maxTenantPools * 10 < s.totalConnections then
    { s with healthy := false, errorTags := s.errorTags ++ [.tooManyOpenConnections] }
  else s

/-- Number of directory queries in a trace. -/
def countDirLookups : List Action → Nat
  | [] => 0
  | .dirLookup _ :: tr => countDirLookups tr + 1
  | .acquireConn _ :: tr => countDirLookups tr
  | .execOnConn _ _ :: tr => countDirLookups tr
  | .connClose _ :: tr => countDirLookups tr
  | .cacheGet _ :: tr => countDirLookups tr
  | .cacheSet _ :: tr => countDirLookups tr
  | .cacheDel _ :: tr => countDirLookups tr
  | .beginTxOnConn _ :: tr => countDirLookups tr
  | .pingMaster :: tr => countDirLookups tr
  | .logWarn :: tr => countDirLookups tr

/-- An action that resolves session/tenant identity: a directory query or
any session-cache access. -/
def isSessionResolution : Action → Bool
  | .dirLookup _ => true
  | .cacheGet _ => true
  | .cacheSet _ => true
  | .cacheDel _ => true
  | _ => false

theorem countDirLookups_append (l1 l2 : List Action) :
    countDirLookups (l1 ++ l2) = countDirLookups l1 + countDirLookups l2 := by
  induction l1 with
  | nil => simp [countDirLookups]
  | cons a tr ih =>
    cases a <;> simp [countDirLookups, ih]
    ring

/-- C4: in dedicated mode, when the tenant-pool count has reached the
configured `MaxTenantPools` cap, a lease for a tenant with no existing
pool fails with the capacity error, creates no pool, performs no side
effects, and leaves the pool map (hence every existing pool) unchanged. -/
theorem C4_theorem (env : PMLeaseEnv) (st : PMState)
    (table : List UserOrgRole) (now : Time) (u : Uuid)
    (habsent : findPool u st.tenantPools = none)
    (hcap : st.maxTenantPools ≤ st.tenantPools.length) :
    pmGetTenantConnection env st table now u =
      (.error (.maxTenantPoolsReached st.maxTenantPools), st, []) := by
  simp [pmGetTenantConnection, pmCreateTenantPool, habsent, hcap]

/-- C4 witness: a concrete manager at its cap (one pool, cap 1) rejects a
lease for the unseen tenant 7 and keeps its state. -/
theorem C4_witness :
    pmGetTenantConnection ⟨⟨true⟩, true, 5, ⟨true, true, true⟩⟩
        ⟨[(3, ⟨3, 10, "owner", 0, 0⟩)], 1⟩ [] 0 7 =
      (.error (.maxTenantPoolsReached 1), ⟨[(3, ⟨3, 10, "owner", 0, 0⟩)], 1⟩, []) :=
  C4_theorem _ _ _ _ _ (by decide) (by decide)

/-- C7: the session cache never returns an expired `CachedSession`
(`get` succeeds only while `now ≤ expiresAt`); a stored-but-expired entry
is reported as a miss and proactively deleted; and `invalidate(userID)`
followed immediately by `get(userID)` never returns a hit, whatever the
state of the Redis client and backend. -/
theorem C7_theorem (present : Bool) (renv : RedisEnv) (now : Time)
    (st : CacheStore) (u : Uuid) :
    (∀ s st' tr, spmGetUserSessionFromCache present renv now st u = (.ok s, st', tr) →
       now ≤ s.expiresAt) ∧
    (∀ s, storeLookup u st = some s → present = true → renv.reachable = true →
       s.expiresAt < now →
       (spmGetUserSessionFromCache present renv now st u).1 = .error .sessionExpired ∧
       storeLookup u (spmGetUserSessionFromCache present renv now st u).2.1 = none) ∧
    (∀ s, (spmGetUserSessionFromCache present renv now
        (spmInvalidateUserSession present renv st u).2.1 u).1 ≠ .ok s) := by
  refine ⟨?_, ?_, ?_⟩
  · intro s st' tr h
    by_cases hp : present = false
    · simp [spmGetUserSessionFromCache, hp] at h
    · simp only [Bool.not_eq_false] at hp
      by_cases hr : renv.reachable = false
      · simp [spmGetUserSessionFromCache, hp, hr] at h
      · simp only [Bool.not_eq_false] at hr
        rcases hl : storeLookup u st with _ | s0
        · simp [spmGetUserSessionFromCache, hp, hr, hl] at h
        · by_cases hexp : s0.expiresAt < now
          · simp [spmGetUserSessionFromCache, hp, hr, hl, hexp] at h
          · simp [spmGetUserSessionFromCache, hp, hr, hl, hexp] at h
            rcases h with ⟨h1, _⟩
            subst h1
            exact Nat.not_lt.mp hexp
  · intro s hl hp hr hexp
    simp [spmGetUserSessionFromCache, hp, hr, hl, hexp, storeLookup_remove]
  · intro s h
    by_cases hp : present = false
    · simp [spmGetUserSessionFromCache, hp] at h
    · simp only [Bool.not_eq_false] at hp
      by_cases hr : renv.reachable = false
      · simp [spmGetUserSessionFromCache, spmInvalidateUserSession, hp, hr] at h
      · simp only [Bool.not_eq_false] at hr
        simp [spmGetUserSessionFromCache, spmInvalidateUserSession, hp, hr,
              storeLookup_remove] at h

/-- C7 witness: a live cache holding an unexpired session for user 4
returns it at time 10 (which is within its expiry 20), and after
invalidation the immediate get misses. -/
theorem C7_witness :
    (10 : Time) ≤ (20 : Time) ∧
    (∀ s, (spmGetUserSessionFromCache true ⟨true⟩ 10
        (spmInvalidateUserSession true ⟨true⟩ [(4, ⟨4, 9, "admin", 20⟩)] 4).2.1 4).1 ≠
        .ok s) :=
  ⟨(C7_theorem true ⟨true⟩ 10 [(4, ⟨4, 9, "admin", 20⟩)] 4).1 ⟨4, 9, "admin", 20⟩
      [(4, ⟨4, 9, "admin", 20⟩)] [.cacheGet 4] (by decide),
    (C7_theorem true ⟨true⟩ 10 [(4, ⟨4, 9, "admin", 20⟩)] 4).2.2⟩

/-- C10: `StatelessTenantDB.Release` sets `released` before the cleanup,
so the handle stays released even if the context reset or close fails; the
cleanup result is returned exactly once; a repeated `Release` returns nil
without performing any cleanup action; and releasing a handle whose
connection is nil returns nil. -/
theorem C10_theorem (env : ReleaseEnv) (t : StatelessTenantDB) :
    (t.released = false →
       stdbRelease env t =
         ((spmReleaseConnection env t.conn).1, { t with released := true },
          (spmReleaseConnection env t.conn).2)) ∧
    (t.released = true → stdbRelease env t = (.ok (), t, [])) ∧
    (t.released = false → t.conn = none → (stdbRelease env t).1 = .ok ()) := by
  refine ⟨?_, ?_, ?_⟩
  · intro h
    simp [stdbRelease, h]
  · intro h
    simp [stdbRelease, h]
  · intro h hc
    simp [stdbRelease, h, hc, spmReleaseConnection]

/-- C10 witness: with a failing `RESET ALL` and a failing `conn.Close`,
the first release still marks the handle released and surfaces the close
error; a nil-connection handle releases with nil. -/
theorem C10_witness :
    (stdbRelease ⟨true, false, true, false⟩ ⟨some 3, 1, false⟩ =
       (.error .closeFailed, ⟨some 3, 1, true⟩,
        [.execOnConn 3 .resetAll, .logWarn, .execOnConn 3 .setSearchPath,
         .connClose 3])) ∧
    (stdbRelease ⟨true, true, true, true⟩ ⟨none, 1, false⟩).1 = .ok () :=
  ⟨(C10_theorem ⟨true, false, true, false⟩ ⟨some 3, 1, false⟩).1 rfl,
    (C10_theorem ⟨true, true, true, true⟩ ⟨none, 1, false⟩).2.2 rfl rfl⟩

/-- C3 counterexample: the claim says every post-release operation,
`queryRow` included, "returns an explicit stale-handle error".  But on a
released handle `QueryRowContext` returns the zero-value `sql.Row` (the
source's `return` of an empty row literal): its error field is `none`, so
no stale-handle error is attached — the failure only surfaces when the row
is consumed.  The same holds for the dedicated-mode wrapper. -/
theorem C3_counterexample :
    (stdbQueryRowContext ⟨true⟩ ⟨some 3, 1, true⟩ = (⟨none, none⟩, [])) ∧
    (tdbQueryRowContext ⟨true⟩ ⟨3, 1, true⟩ = (⟨none, none⟩, [])) := by
  decide

/-- C3 (amended): on a released handle (either wrapper), `exec`, `query`,
`beginTransaction` and `ping` fail fast with the explicit
"connection has been released" error and touch no connection; `queryRow`
returns the zero-value row — no data source, deferring its failure — and a
second `release` is a no-op returning nil. -/
theorem C3_theorem (env : OpEnv) (renv : ReleaseEnv) (closeOk : Bool)
    (t : StatelessTenantDB) (t2 : TenantDB)
    (h : t.released = true) (h2 : t2.released = true) :
    stdbExecContext env t = (.error .connectionReleased, []) ∧
    stdbQueryContext env t = (.error .connectionReleased, []) ∧
    stdbBeginTx env t = (.error .connectionReleased, []) ∧
    stdbPing env t = (.error .connectionReleased, []) ∧
    stdbQueryRowContext env t = (⟨none, none⟩, []) ∧
    stdbRelease renv t = (.ok (), t, []) ∧
    tdbExecContext env t2 = (.error .connectionReleased, []) ∧
    tdbQueryContext env t2 = (.error .connectionReleased, []) ∧
    tdbBeginTx env t2 = (.error .connectionReleased, []) ∧
    tdbPing env t2 = (.error .connectionReleased, []) ∧
    tdbQueryRowContext env t2 = (⟨none, none⟩, []) ∧
    tdbRelease closeOk t2 = (.ok (), t2, []) := by
  simp [stdbExecContext, stdbQueryContext, stdbBeginTx, stdbPing,
    stdbQueryRowContext, stdbRelease, tdbExecContext, tdbQueryContext,
    tdbBeginTx, tdbPing, tdbQueryRowContext, tdbRelease, h, h2]

/-- C3 witness: concrete released handles exhibit the fail-fast behaviour
and the idempotent release. -/
theorem C3_witness :
    stdbExecContext ⟨true⟩ ⟨some 3, 1, true⟩ = (.error .connectionReleased, []) ∧
    tdbRelease true ⟨3, 1, true⟩ = (.ok (), ⟨3, 1, true⟩, []) :=
  ⟨(C3_theorem ⟨true⟩ ⟨true, true, true, true⟩ true ⟨some 3, 1, true⟩ ⟨3, 1, true⟩
      rfl rfl).1,
    (C3_theorem ⟨true⟩ ⟨true, true, true, true⟩ true ⟨some 3, 1, true⟩ ⟨3, 1, true⟩
      rfl rfl).2.2.2.2.2.2.2.2.2.2.2⟩

/-- C1 counterexample: the claim says a connection whose context injection
failed is "closed rather than returned or pooled".  The failure path calls
`(*sql.Conn).Close()`, which by Go's database/sql semantics returns the
connection to the shared pool — so the unscoped connection *is* pooled
(without any reset), even though the lease itself fails. -/
theorem C1_counterexample :
    (spmGetTenantConnection ⟨some 3, ⟨true, false, true⟩⟩ 7).1 =
      .error (.setUserContextFailed .setRLSContextFailed) ∧
    returnedToPool (spmGetTenantConnection ⟨some 3, ⟨true, false, true⟩⟩ 7).2 3 := by
  decide

/-- C1 (amended): in both modes, if context injection on the freshly
acquired connection fails, the lease fails with an error and the
connection is never handed to the caller; the connection is passed to
`conn.Close()`, which returns it to its driver-level pool.  The
dedicated-mode half covers every lease attempt that reaches injection:
either the tenant's pool already exists, or it is created freshly on this
very lease (map absent, below the cap, directory row present, `sql.Open`
succeeding). -/
theorem C1_theorem (env : SpmLeaseEnv) (u : Uuid) (c : Conn)
    (denv : PMLeaseEnv) (st : PMState) (table : List UserOrgRole)
    (now : Time) (du : Uuid)
    (hacq : env.acquired = some c)
    (hfail : env.ctx.castOk = false ∨ env.ctx.setUserIdOk = false)
    (hres : (∃ p, findPool du st.tenantPools = some p) ∨
            (findPool du st.tenantPools = none ∧
             st.tenantPools.length < st.maxTenantPools ∧
             (∃ r, firstRowFor du table = some r) ∧
             denv.createEnv.openOk = true))
    (hconn : denv.connOk = true)
    (hdfail : denv.ctx.castOk = false ∨ denv.ctx.setUserIdOk = false) :
    ((∃ e, (spmGetTenantConnection env u).1 = .error e) ∧
     (∀ c', (spmGetTenantConnection env u).1 ≠ .ok c') ∧
     returnedToPool (spmGetTenantConnection env u).2 c) ∧
    ((∃ e, (pmGetTenantConnection denv st table now du).1 = .error e) ∧
     (∀ c', (pmGetTenantConnection denv st table now du).1 ≠ .ok c') ∧
     returnedToPool (pmGetTenantConnection denv st table now du).2.2 denv.conn) := by
  constructor
  · rcases hfail with hf | hf
    · simp [spmGetTenantConnection, spmSetUserContext, hacq, hf, returnedToPool]
    · cases hcast : env.ctx.castOk <;>
        simp [spmGetTenantConnection, spmSetUserContext, hacq, hcast, hf, returnedToPool]
  · rcases hres with ⟨p, hpool⟩ | ⟨habs, hcap, ⟨r, hrow⟩, hopen⟩
    · rcases hdfail with hf | hf
      · simp [pmGetTenantConnection, setUserContext, hpool, hconn, hf, returnedToPool]
      · cases hcast : denv.ctx.castOk <;>
          simp [pmGetTenantConnection, setUserContext, hpool, hconn, hcast, hf,
            returnedToPool]
    · have hcap' : ¬ st.maxTenantPools ≤ st.tenantPools.length := Nat.not_le.mpr hcap
      rcases hdfail with hf | hf
      · simp [pmGetTenantConnection, pmCreateTenantPool, pmGetUserOrgInfo,
          setUserContext, habs, hcap', hrow, hopen, hconn, hf, returnedToPool]
      · cases hcast : denv.ctx.castOk <;>
          simp [pmGetTenantConnection, pmCreateTenantPool, pmGetUserOrgInfo,
            setUserContext, habs, hcap', hrow, hopen, hconn, hcast, hf,
            returnedToPool]

/-- C1 witness: concrete failing injections in both modes — the lease
fails and the connection goes back to its pool.  The dedicated-mode
instance is a *first* lease: the manager starts with no pools, the pool
for user 4 is created on this attempt, and injection then fails. -/
theorem C1_witness :
    ((∃ e, (spmGetTenantConnection ⟨some 3, ⟨true, false, true⟩⟩ 7).1 = .error e) ∧
     (∀ c', (spmGetTenantConnection ⟨some 3, ⟨true, false, true⟩⟩ 7).1 ≠ .ok c') ∧
     returnedToPool (spmGetTenantConnection ⟨some 3, ⟨true, false, true⟩⟩ 7).2 3) ∧
    ((∃ e, (pmGetTenantConnection ⟨⟨true⟩, true, 5, ⟨false, true, true⟩⟩
        ⟨[], 8⟩ [⟨4, 9, "owner", 0⟩] 2 4).1 = .error e) ∧
     (∀ c', (pmGetTenantConnection ⟨⟨true⟩, true, 5, ⟨false, true, true⟩⟩
        ⟨[], 8⟩ [⟨4, 9, "owner", 0⟩] 2 4).1 ≠ .ok c') ∧
     returnedToPool (pmGetTenantConnection ⟨⟨true⟩, true, 5, ⟨false, true, true⟩⟩
        ⟨[], 8⟩ [⟨4, 9, "owner", 0⟩] 2 4).2.2 5) :=
  C1_theorem ⟨some 3, ⟨true, false, true⟩⟩ 7 3
    ⟨⟨true⟩, true, 5, ⟨false, true, true⟩⟩ ⟨[], 8⟩ [⟨4, 9, "owner", 0⟩] 2 4
    rfl (Or.inr rfl)
    (Or.inr ⟨rfl, by decide, ⟨⟨4, 9, "owner", 0⟩, rfl⟩, rfl⟩)
    rfl (Or.inl rfl)

/-- C2 counterexample: the claim says that when clearing connection-local
state fails, the connection is "closed and not returned to the pool".  In
the source a failed `RESET ALL` is merely logged (`log.Printf("WARN: ...")`)
and swallowed: `ReleaseConnection` still reports success (`nil`) and still
calls `conn.Close()`, which returns the uncleared connection to the shared
pool. -/
theorem C2_counterexample :
    spmReleaseConnection ⟨true, false, true, true⟩ (some 3) =
      (.ok (), [.execOnConn 3 .resetAll, .logWarn, .execOnConn 3 .setSearchPath,
                .connClose 3]) ∧
    returnedToPool (spmReleaseConnection ⟨true, false, true, true⟩ (some 3)).2 3 := by
  decide

/-- C2 (amended): shared-mode release issues `RESET ALL` (all
connection-local state, not just the tenant variable) strictly before the
`conn.Close()` that returns the connection to the shared pool; but a
failed reset is logged and swallowed — release still reports success and
the connection is still pooled — and even a failed driver cast, though
returned as an error, is followed by `conn.Close()` pooling the
connection. -/
theorem C2_theorem (env : ReleaseEnv) (c : Conn) :
    (env.castOk = true →
       ∃ pre, (spmReleaseConnection env (some c)).2 = pre ++ [Action.connClose c] ∧
         Action.execOnConn c Stmt.resetAll ∈ pre) ∧
    (env.castOk = true → env.resetAllOk = false → env.closeOk = true →
       (spmReleaseConnection env (some c)).1 = .ok () ∧
       returnedToPool (spmReleaseConnection env (some c)).2 c) ∧
    (env.castOk = false →
       (spmReleaseConnection env (some c)).1 = .error (.contextResetError .castFailed) ∧
       returnedToPool (spmReleaseConnection env (some c)).2 c) := by
  rcases env with ⟨co, ro, so, clo⟩
  refine ⟨?_, ?_, ?_⟩
  · intro hc
    simp only at hc
    subst hc
    cases ro <;> cases so <;> simp [spmReleaseConnection, returnedToPool]
    · exact ⟨[.execOnConn c .resetAll, .logWarn, .execOnConn c .setSearchPath, .logWarn],
        by simp, by simp⟩
    · exact ⟨[.execOnConn c .resetAll, .logWarn, .execOnConn c .setSearchPath],
        by simp, by simp⟩
    · exact ⟨[.execOnConn c .resetAll, .execOnConn c .setSearchPath, .logWarn],
        by simp, by simp⟩
    · exact ⟨[.execOnConn c .resetAll, .execOnConn c .setSearchPath],
        by simp, by simp⟩
  · intro hc hr hcl
    simp only at hc hr hcl
    subst hc; subst hr; subst hcl
    cases so <;> simp [spmReleaseConnection, returnedToPool]
  · intro hc
    simp only at hc
    subst hc
    simp [spmReleaseConnection, returnedToPool]

/-- C2 witness: with a working driver cast but a failing `RESET ALL`, the
reset precedes the pooling close, yet release succeeds and the connection
is pooled. -/
theorem C2_witness :
    (∃ pre, (spmReleaseConnection ⟨true, false, true, true⟩ (some 3)).2 =
        pre ++ [Action.connClose 3] ∧
      Action.execOnConn 3 Stmt.resetAll ∈ pre) ∧
    ((spmReleaseConnection ⟨true, false, true, true⟩ (some 3)).1 = .ok () ∧
     returnedToPool (spmReleaseConnection ⟨true, false, true, true⟩ (some 3)).2 3) :=
  ⟨(C2_theorem ⟨true, false, true, true⟩ 3).1 rfl,
    (C2_theorem ⟨true, false, true, true⟩ 3).2.1 rfl rfl rfl⟩

/-- C5 counterexample: the claim says *both* managers' lookups return the
most-recently-created association.  The dedicated-mode query
(`getUserOrgInfo`, pool.go) has `LIMIT 1` but no `ORDER BY`: on a table
holding, for user 1, org 10 created at time 5 before org 20 created at
time 9, it returns the *older* association (org 10), while the
shared-mode query (`ORDER BY created_at DESC`) returns org 20. -/
theorem C5_counterexample :
    pmGetUserOrgInfo [⟨1, 10, "viewer", 5⟩, ⟨1, 20, "owner", 9⟩] 1 =
      (.ok (10, "viewer"), [.dirLookup 1]) ∧
    (spmGetUserSessionFromDB [⟨1, 10, "viewer", 5⟩, ⟨1, 20, "owner", 9⟩] 0 1).1 =
      .ok ⟨1, 20, "owner", sessionTTL⟩ ∧
    (UserOrgRole.mk 1 20 "owner" 9) ∈ [UserOrgRole.mk 1 10 "viewer" 5, ⟨1, 20, "owner", 9⟩] ∧
    (5 : Time) < 9 := by
  decide

/-- C5 (amended): the shared-mode lookup (`getUserSessionFromDB`) does
satisfy the contract — it returns a membership of maximal `created_at`
for the user, or the "user not found in any organization" error when the
user has none; the dedicated-mode lookup (`getUserOrgInfo`) returns *some*
association of the user (the first in storage order, with no recency
guarantee), or the same not-found error. -/
theorem C5_theorem (table : List UserOrgRole) (now : Time) (u : Uuid) :
    (∀ s, (spmGetUserSessionFromDB table now u).1 = .ok s →
       ∃ r, r ∈ table ∧ r.userId = u ∧ s = ⟨u, r.orgId, r.role, now + sessionTTL⟩ ∧
         ∀ r' ∈ table, r'.userId = u → r'.createdAt ≤ r.createdAt) ∧
    ((∀ r ∈ table, r.userId ≠ u) →
       (spmGetUserSessionFromDB table now u).1 = .error .userNotFound) ∧
    (∀ o ro, (pmGetUserOrgInfo table u).1 = .ok (o, ro) →
       ∃ r, r ∈ table ∧ r.userId = u ∧ r.orgId = o ∧ r.role = ro) ∧
    ((∀ r ∈ table, r.userId ≠ u) →
       (pmGetUserOrgInfo table u).1 = .error .userNotFound) := by
  refine ⟨?_, ?_, ?_, ?_⟩
  · intro s h
    rcases hn : newestRowFor u table with _ | r
    · simp [spmGetUserSessionFromDB, hn] at h
    · simp [spmGetUserSessionFromDB, hn] at h
      rcases newestRowFor_mem hn with ⟨hm, hu⟩
      exact ⟨r, hm, hu, h.symm, newestRowFor_ge hn⟩
  · intro h
    simp [spmGetUserSessionFromDB, newestRowFor_eq_none.mpr h]
  · intro o ro h
    rcases hf : firstRowFor u table with _ | r
    · simp [pmGetUserOrgInfo, hf] at h
    · simp [pmGetUserOrgInfo, hf] at h
      rcases firstRowFor_mem hf with ⟨hm, hu⟩
      exact ⟨r, hm, hu, h.1, h.2⟩
  · intro h
    simp [pmGetUserOrgInfo, firstRowFor_eq_none.mpr h]

/-- C5 witness: on the two-membership table, the shared-mode lookup's
result is the newest association (org 20, created at 9). -/
theorem C5_witness :
    ∃ r, r ∈ [UserOrgRole.mk 1 10 "viewer" 5, ⟨1, 20, "owner", 9⟩] ∧
      r.userId = 1 ∧
      (⟨1, 20, "owner", sessionTTL⟩ : UserSession) = ⟨1, r.orgId, r.role, 0 + sessionTTL⟩ ∧
      ∀ r' ∈ [UserOrgRole.mk 1 10 "viewer" 5, ⟨1, 20, "owner", 9⟩],
        r'.userId = 1 → r'.createdAt ≤ r.createdAt :=
  (C5_theorem [⟨1, 10, "viewer", 5⟩, ⟨1, 20, "owner", 9⟩] 0 1).1
    ⟨1, 20, "owner", sessionTTL⟩ (by decide)

/-- C8 counterexample: the claim says every session-cache operation,
`invalidate` included, degrades to a no-op rather than returning an error.
But `InvalidateUserSession` with a configured client and an unreachable
backend returns `spm.redis.Del(ctx, key).Err()` — the backend error — to
the caller. -/
theorem C8_counterexample :
    (spmInvalidateUserSession true ⟨false⟩ [(1, ⟨1, 9, "owner", 50⟩)] 1).1 =
      .error .redisError := by
  decide

/-- C8 (amended): with the cache absent or unreachable, session *reads*
degrade as claimed — `GetUserSession` returns exactly what the directory
lookup alone returns, and a `put` failure is never surfaced through it —
and `invalidate` is a no-op returning nil when no client is configured;
but when a client is configured and the backend is unreachable,
`invalidate` returns the backend error to the caller. -/
theorem C8_theorem (present : Bool) (renv : RedisEnv)
    (table : List UserOrgRole) (now : Time) (st : CacheStore) (u : Uuid)
    (hdeg : present = false ∨ renv.reachable = false) :
    (spmGetUserSession present renv table now st u).1 =
      (spmGetUserSessionFromDB table now u).1 ∧
    (present = false → spmInvalidateUserSession present renv st u = (.ok (), st, [])) ∧
    (present = true → renv.reachable = false →
       (spmInvalidateUserSession present renv st u).1 = .error .redisError) := by
  refine ⟨?_, ?_, ?_⟩
  · rcases hdeg with h | h
    · rcases hdb : spmGetUserSessionFromDB table now u with ⟨r, tr⟩
      cases r <;> simp [spmGetUserSession, h, hdb]
    · cases hp : present
      · rcases hdb : spmGetUserSessionFromDB table now u with ⟨r, tr⟩
        cases r <;> simp [spmGetUserSession, hp, hdb]
      · rcases hdb : spmGetUserSessionFromDB table now u with ⟨r, tr⟩
        cases r <;>
          simp [spmGetUserSession, spmGetUserSessionFromCache,
            spmCacheUserSession, hp, h, hdb]
  · intro h
    simp [spmInvalidateUserSession, h]
  · intro hp hr
    simp [spmInvalidateUserSession, hp, hr]

/-- C8 witness: with an unreachable backend, `GetUserSession` for user 1
still resolves through the directory (org 20, the newest membership), and
`invalidate` without a configured client is a silent no-op. -/
theorem C8_witness :
    (spmGetUserSession true ⟨false⟩ [⟨1, 20, "owner", 9⟩] 0 [] 1).1 =
      (spmGetUserSessionFromDB [⟨1, 20, "owner", 9⟩] 0 1).1 ∧
    spmInvalidateUserSession false ⟨false⟩ [] 1 = (.ok (), [], []) :=
  ⟨(C8_theorem true ⟨false⟩ [⟨1, 20, "owner", 9⟩] 0 [] 1 (Or.inr rfl)).1,
    (C8_theorem false ⟨false⟩ [] 0 [] 1 (Or.inl rfl)).2.1 rfl⟩

/-- C9: the claim says health is "overall healthy exactly when" the
master/shared ping succeeds, the cache ping succeeds, and connections stay
within capacity.  The dedicated-mode `PoolManager.GetHealth` (stats.go)
initializes `Healthy` to Go's zero value `false` and no branch ever sets
it to `true`, so it reports unhealthy for *every* input — including the
all-checks-pass input of the repository's own `TestPoolHealth`, which
asserts `health.Healthy` is true.  (The shared-mode `GetHealth` computes
healthy as: master ping ∧ (Redis ping, when a client is configured) ∧
capacity — with a nil client it omits the cache check yet stays healthy.)
-/
theorem C9_theorem :
    (∀ e : PMHealthEnv, (pmGetHealth e).healthy = false) ∧
    (pmGetHealth ⟨true, [], 0, 10, 10⟩).masterHealthy = true ∧
    (pmGetHealth ⟨true, [], 0, 10, 10⟩).totalConnections = 0 ∧
    (∀ e : SpmHealthEnv, (spmGetHealth e).healthy = true ↔
       (e.masterPingOk = true ∧ (e.redisPresent = true → e.redisPingOk = true) ∧
        e.openConnections ≤ e.maxOpenConns)) := by
  refine ⟨?_, by decide, by decide, ?_⟩
  · intro e
    rcases e with ⟨mp, tc, mc, mx, mt⟩
    cases mp <;> simp [pmGetHealth] <;> split <;> simp
  · intro e
    rcases e with ⟨mp, rp, rpo, oc, mx⟩
    cases mp <;> cases rp <;> cases rpo <;>
      simp [spmGetHealth] <;> split <;> simp_all

/-- C9 witness: the `TestPoolHealth` configuration — master ping fine,
zero connections, within every limit — is still reported unhealthy. -/
theorem C9_witness : (pmGetHealth ⟨true, [], 0, 10, 10⟩).healthy = false :=
  C9_theorem.1 ⟨true, [], 0, 10, 10⟩

/-- C6 counterexample: the claim says the shared-mode lease resolves
`TenantIdentity` through the session cache (populating it on the first
lease for a new user) before injecting context.  But
`StatelessPoolManager.GetTenantConnection` performs *no* session
resolution at all: a successful first lease for the never-seen user 7
touches neither the cache nor the directory — its trace holds no
resolution action. -/
theorem C6_counterexample :
    (spmGetTenantConnection ⟨some 3, ⟨true, true, true⟩⟩ 7).1 = .ok 3 ∧
    (spmGetTenantConnection ⟨some 3, ⟨true, true, true⟩⟩ 7).2.filter
        isSessionResolution = [] := by
  decide

/-- C6 (amended): in dedicated mode the first lease for an unseen user
performs exactly one directory lookup and installs the tenant pool, and
any later lease for a user whose pool exists performs none.  In shared
mode a lease performs no session resolution whatsoever; the
cache-falling-back-to-directory-then-populate path is `GetUserSession`,
invoked independently of leasing: on a cache miss it performs exactly one
directory lookup and populates the cache, and an immediately repeated call
(before any invalidation or expiry) performs none. -/
theorem C6_theorem (env : PMLeaseEnv) (st : PMState)
    (table : List UserOrgRole) (now : Time) (u : Uuid) (r : UserOrgRole)
    (cst : CacheStore) (cu : Uuid) (cnow : Time) (r2 : UserOrgRole)
    (habsent : findPool u st.tenantPools = none)
    (hcap : st.tenantPools.length < st.maxTenantPools)
    (hrow : firstRowFor u table = some r)
    (hopen : env.createEnv.openOk = true)
    (hmiss : storeLookup cu cst = none)
    (hrow2 : newestRowFor cu table = some r2) :
    countDirLookups (pmGetTenantConnection env st table now u).2.2 = 1 ∧
    (∃ p2, findPool u ((pmGetTenantConnection env st table now u).2.1).tenantPools =
      some p2) ∧
    (∀ (env2 : PMLeaseEnv) (st2 : PMState) (now2 : Time) (p2 : TenantPool),
       findPool u st2.tenantPools = some p2 →
       countDirLookups (pmGetTenantConnection env2 st2 table now2 u).2.2 = 0) ∧
    (∀ (e : SpmLeaseEnv) (v : Uuid),
       (spmGetTenantConnection e v).2.filter isSessionResolution = []) ∧
    countDirLookups (spmGetUserSession true ⟨true⟩ table cnow cst cu).2.2 = 1 ∧
    countDirLookups (spmGetUserSession true ⟨true⟩ table cnow
      (spmGetUserSession true ⟨true⟩ table cnow cst cu).2.1 cu).2.2 = 0 := by
  have hcap' : ¬ st.maxTenantPools ≤ st.tenantPools.length := Nat.not_le.mpr hcap
  refine ⟨?_, ?_, ?_, ?_, ?_, ?_⟩
  · cases hco : env.connOk <;> cases hca : env.ctx.castOk <;>
      cases hsu : env.ctx.setUserIdOk <;>
      simp [pmGetTenantConnection, pmCreateTenantPool, pmGetUserOrgInfo,
        setUserContext, habsent, hcap', hrow, hopen, hco, hca, hsu,
        countDirLookups, countDirLookups_append]
  · have happ : findPool u (st.tenantPools ++ [(u, ⟨u, r.orgId, r.role, now, now⟩)]) =
        some ⟨u, r.orgId, r.role, now, now⟩ := by
      rw [findPool_append_none habsent]
      simp [findPool]
    cases hco : env.connOk <;> cases hca : env.ctx.castOk <;>
      cases hsu : env.ctx.setUserIdOk <;>
      simp [pmGetTenantConnection, pmCreateTenantPool, pmGetUserOrgInfo,
        setUserContext, habsent, hcap', hrow, hopen, hco, hca, hsu,
        findPool_updateLastUsed, happ]
  · intro env2 st2 now2 p2 hfind
    cases hco : env2.connOk <;> cases hca : env2.ctx.castOk <;>
      cases hsu : env2.ctx.setUserIdOk <;>
      simp [pmGetTenantConnection, setUserContext, hfind, hco, hca, hsu,
        countDirLookups, countDirLookups_append]
  · intro e v
    rcases e with ⟨acq, ca, su, ts⟩
    cases acq <;> cases ca <;> cases su <;>
      simp [spmGetTenantConnection, spmSetUserContext, isSessionResolution]
  · simp [spmGetUserSession, spmGetUserSessionFromCache, hmiss,
      spmGetUserSessionFromDB, hrow2, spmCacheUserSession,
      countDirLookups, countDirLookups_append]
  · have hnl : ¬ (cnow + sessionTTL < cnow) :=
      Nat.not_lt.mpr (Nat.le_add_right cnow sessionTTL)
    simp [spmGetUserSession, spmGetUserSessionFromCache, hmiss,
      spmGetUserSessionFromDB, hrow2, spmCacheUserSession, storeInsert,
      storeLookup, hnl, countDirLookups, countDirLookups_append]

/-- C6 witness: concrete first/second leases and session resolutions — in
dedicated mode one lookup then a state holding the new pool; in shared
mode a lease trace with no resolution actions; and one lookup for the
first `GetUserSession` of user 7. -/
theorem C6_witness :
    countDirLookups (pmGetTenantConnection ⟨⟨true⟩, true, 5, ⟨true, true, true⟩⟩
      ⟨[], 4⟩ [⟨7, 10, "owner", 3⟩] 2 7).2.2 = 1 ∧
    countDirLookups (spmGetUserSession true ⟨true⟩ [⟨7, 10, "owner", 3⟩] 2 [] 7).2.2 = 1 :=
  ⟨(C6_theorem ⟨⟨true⟩, true, 5, ⟨true, true, true⟩⟩ ⟨[], 4⟩ [⟨7, 10, "owner", 3⟩]
      2 7 ⟨7, 10, "owner", 3⟩ [] 7 2 ⟨7, 10, "owner", 3⟩
      rfl (by decide) rfl rfl rfl rfl).1,
    (C6_theorem ⟨⟨true⟩, true, 5, ⟨true, true, true⟩⟩ ⟨[], 4⟩ [⟨7, 10, "owner", 3⟩]
      2 7 ⟨7, 10, "owner", 3⟩ [] 7 2 ⟨7, 10, "owner", 3⟩
      rfl (by decide) rfl rfl rfl rfl).2.2.2.2.1⟩

end OpenVDO
